import Mathlib

/-!
Verification of the GRUB UDF filesystem driver (src/grub-core/fs/udf.c)
against its natural-language specification.

The embedding is shallow: each C function of the driver is translated into
an executable Lean function over explicit state.  On-disk memory (the one
logical block held in a file node, the continuation buffer filled from an
AED read) is modelled as a total function `Nat → Nat` giving the byte at
each offset, exactly as C pointer arithmetic sees it; multi-byte fields are
decoded little-endian as the U16/U32/U64 macros do.  Disk accesses go
through oracles `Nat → Option _` keyed by the 512-byte sector passed to
grub_disk_read; `none` models a failing read.  Machine arithmetic is Nat
with explicit `% 2^w` at the operations where the C types can wrap.

The header grub/udf.h is not part of the source tree; the numeric
constants taken from it (tag identifiers, EXT_MASK, ICBTag strategy mask,
FID characteristics bits, field offsets of the packed descriptors) are
modelled from the specification's "File format constants" section and the
ECMA-167 layouts it references; each such definition is marked below.
-/

/-- Little-endian 8-bit read of a byte-addressed memory. -/
def u8At (m : Nat → Nat) (a : Nat) : Nat := m a % 256

/-- Little-endian 16-bit decode, as the U16 macro applied to an on-disk field. -/
def u16At (m : Nat → Nat) (a : Nat) : Nat := u8At m a + 256 * u8At m (a + 1)

/-- Little-endian 32-bit decode, as the U32 macro applied to an on-disk field. -/
def u32At (m : Nat → Nat) (a : Nat) : Nat := u16At m a + 65536 * u16At m (a + 2)

/-- Little-endian 64-bit decode, as the U64 macro applied to an on-disk field. -/
def u64At (m : Nat → Nat) (a : Nat) : Nat := u32At m a + 4294967296 * u32At m (a + 4)

/-- Modelled from the spec: descriptor tag identifiers (grub/udf.h is not in src). -/
def GRUB_UDF_TAG_IDENT_PVD : Nat := 1
def GRUB_UDF_TAG_IDENT_AVDP : Nat := 2
def GRUB_UDF_TAG_IDENT_PD : Nat := 5
def GRUB_UDF_TAG_IDENT_LVD : Nat := 6
def GRUB_UDF_TAG_IDENT_TD : Nat := 8
def GRUB_UDF_TAG_IDENT_FSD : Nat := 256
def GRUB_UDF_TAG_IDENT_FID : Nat := 257
def GRUB_UDF_TAG_IDENT_AED : Nat := 258
def GRUB_UDF_TAG_IDENT_FE : Nat := 261
def GRUB_UDF_TAG_IDENT_EFE : Nat := 266

/-- Modelled from the spec: the sparse-extent marker bit in an AD position. -/
def GRUB_UDF_EXT_MASK : Nat := 0x40000000

/-- Modelled from the spec: low three bits of ICBTag flags select the AD strategy. -/
def GRUB_UDF_ICBTAG_FLAG_AD_MASK : Nat := 7

/-- Disk sectors are 512 bytes: grub's GRUB_DISK_SECTOR_BITS. -/
def GRUB_DISK_SECTOR_BITS : Nat := 9

/-- Modelled from the spec: FID characteristics bits (directory, deleted, parent). -/
def GRUB_UDF_FID_CHAR_DIRECTORY : Nat := 2
def GRUB_UDF_FID_CHAR_DELETED : Nat := 4
def GRUB_UDF_FID_CHAR_PARENT : Nat := 8

/-- Modelled from the spec: ICBTag file type of a symlink. -/
def GRUB_UDF_ICBTAG_TYPE_SYMLINK : Nat := 12

/-- Modelled from the spec: capacity of the PD table (spec: at least 4 adequate). -/
def GRUB_UDF_MAX_PDS : Nat := 4

/-- Modelled from the spec: capacity of the partition-map table. -/
def GRUB_UDF_MAX_PMS : Nat := 4

/-- Modelled from the spec: byte size of the packed FID header read by iterate_dir. -/
def GRUB_UDF_FID_SIZE : Nat := 38

/-- Modelled from the spec / ECMA-167: offset of ext_attr_length in a File Entry. -/
def FE_EXT_ATTR_LENGTH_OFF : Nat := 168

/-- Modelled from the spec / ECMA-167: offset of alloc_descs_length in a File Entry. -/
def FE_ALLOC_DESCS_LENGTH_OFF : Nat := 172

/-- Modelled from the spec / ECMA-167: offset of ext_attr[0] in a File Entry. -/
def FE_EXT_ATTR_OFF : Nat := 176

/-- Modelled from the spec / ECMA-167: offset of ext_attr_length in an Extended FE. -/
def EFE_EXT_ATTR_LENGTH_OFF : Nat := 208

/-- Modelled from the spec / ECMA-167: offset of alloc_descs_length in an Extended FE. -/
def EFE_ALLOC_DESCS_LENGTH_OFF : Nat := 212

/-- Modelled from the spec / ECMA-167: offset of ext_attr[0] in an Extended FE. -/
def EFE_EXT_ATTR_OFF : Nat := 216

/-- Modelled from the spec / ECMA-167: offset of icbtag.flags inside an FE/EFE block. -/
def FE_ICBTAG_FLAGS_OFF : Nat := 34

/-- Modelled from the spec / ECMA-167: offset of icbtag.file_type inside an FE/EFE block. -/
def FE_ICBTAG_FILE_TYPE_OFF : Nat := 27

/-- Modelled from the spec / ECMA-167: offset of file_size (information length) in FE/EFE. -/
def FE_FILE_SIZE_OFF : Nat := 56

/-- Modelled from the spec / ECMA-167: byte size of the AED header (tag + prev + ae_len). -/
def GRUB_UDF_AED_SIZE : Nat := 24

/-- Modelled from the spec / ECMA-167: offset of ae_len inside an AED. -/
def AED_AE_LEN_OFF : Nat := 20

/-!  ## The byte codec (read_string and friends)  -/

/-- Modelled from the spec: the external UTF-16 to UTF-8 converter
(grub_utf16_to_utf8 lives outside src).  Each 16-bit code unit is encoded
in standard UTF-8 (surrogate pairing is not modelled; the claims only
exercise ASCII). -/
def utf16UnitToUtf8 (u : Nat) : List Nat :=
  if u < 128 then [u]
  else if u < 2048 then [192 + u / 64, 128 + u % 64]
  else [224 + u / 4096, 128 + u / 64 % 64, 128 + u % 64]

/-- Modelled from the spec: external converter over a whole code-unit list. -/
def grub_utf16_to_utf8 (l : List Nat) : List Nat :=
  (l.map utf16UnitToUtf8).flatten

/-- OSTA compressed-Unicode decode, from read_string in udf.c.  The input
list carries the raw bytes together with their length sz; the result is the
UTF-8 byte string, or none where the C function returns NULL (sz == 0, or a
compression identifier other than 8 or 16).  Allocation is assumed to
succeed. -/
def read_string (raw : List Nat) : Option (List Nat) :=
  if raw.length = 0 then none
  else
    let c := raw.headD 0 % 256
    if c = 8 then
      some (grub_utf16_to_utf8 ((raw.drop 1).map (· % 256)))
    else if c = 16 then
      some (grub_utf16_to_utf8
        ((List.range ((raw.length - 1) / 2)).map
          (fun i => (raw.getD (2 * i + 1) 0 % 256) * 256 + raw.getD (2 * i + 2) 0 % 256)))
    else none

/-!  ## Partition lookup and file-block resolution (grub_udf_get_block,
grub_udf_read_block)  -/

/-- The environment a block resolution runs in: the fields of
grub_udf_data that grub_udf_get_block and grub_udf_read_block consult, with
the pms/pds arrays as total functions (array cells beyond the filled region
hold arbitrary values, as in C), and the disk restricted to the AED
continuation reads the walk performs.  `aedRead` is keyed by the 512-byte
sector grub_disk_read receives and returns the continuation buffer contents
after a successful read. -/
structure RBEnv where
  lbshift : Nat
  bsize : Nat
  npm : Nat
  pmPartNum : Nat → Nat
  pdStart : Nat → Nat
  aedRead : Nat → Option (Nat → Nat)
  allocOk : Bool

/-- A file node: its partition reference and the raw bytes of the one
logical block holding its FE or EFE (plus the adjacent memory C pointer
arithmetic could reach). -/
structure UdfNode where
  part_ref : Nat
  mem : Nat → Nat

/-- grub_udf_get_block from udf.c: partition-relative to absolute block.
Returns (errored, value): on an out-of-range part_ref the C function raises
GRUB_ERR_BAD_FS and returns 0; otherwise the u32 sum of the PD start and
the block number.  The boolean records whether grub_errno was set. -/
def grub_udf_get_block (env : RBEnv) (part_ref block : Nat) : Bool × Nat :=
  let pr := part_ref % 65536
  if env.npm ≤ pr then (true, 0)
  else (false, (env.pdStart (env.pmPartNum pr % 65536) % 4294967296
                + block % 4294967296) % 4294967296)

/-- The possible outcomes of grub_udf_read_block, before they are all
collapsed onto the single return value (see rbToAddr).  `found v e` is the
filebytes < adlen hit: v is the value returned and e records whether the
embedded grub_udf_get_block call failed (errno set, contributing 0). -/
inductive RBOut where
  | found (v : Nat) (lookupErr : Bool)
  | sparse
  | exhausted
  | invalidFe
  | allocFail
  | aedReadErr
  | aedBadTag
  | fuelOut
deriving DecidableEq

/-- How grub_udf_read_block's single grub_disk_addr_t return value arises
from each outcome: every path except the found branch returns 0. -/
def rbToAddr : RBOut → Nat
  | .found v _ => v
  | _ => 0

/-- The short-AD loop of grub_udf_read_block.  State: the memory the AD
list lives in, the byte address of the current AD, the remaining list
length, the remaining filebytes, and whether the continuation buffer has
been allocated.  fuel bounds the iterations (the C loop is unbounded on a
cyclic AED chain). -/
def grub_udf_walk_short (env : RBEnv) (pr : Nat) :
    Nat → (Nat → Nat) → Nat → Nat → Nat → Bool → RBOut
  | 0, _, _, _, _, _ => .fuelOut
  | fuel + 1, m, a, len, fb, bufA =>
    if len < 8 then .exhausted
    else
      let adLength := u32At m a
      let adPos := u32At m (a + 4)
      let adlen := adLength % 1073741824
      let adtype := adLength / 1073741824
      if adtype = 3 then
        let sec := (grub_udf_get_block env pr adPos).2
        if bufA = false ∧ env.allocOk = false then .allocFail
        else
          match env.aedRead (sec <<< env.lbshift) with
          | none => .aedReadErr
          | some m2 =>
            if u16At m2 0 ≠ GRUB_UDF_TAG_IDENT_AED then .aedBadTag
            else grub_udf_walk_short env pr fuel m2 GRUB_UDF_AED_SIZE
                   (u32At m2 AED_AE_LEN_OFF) fb true
      else if fb < adlen then
        if adPos &&& GRUB_UDF_EXT_MASK ≠ 0 then .sparse
        else
          let r := grub_udf_get_block env pr adPos
          .found (r.2 + (fb >>> (GRUB_DISK_SECTOR_BITS + env.lbshift))) r.1
      else grub_udf_walk_short env pr fuel m (a + 8) (len - 8) (fb - adlen) bufA

/-- The long-AD loop of grub_udf_read_block: as the short walk, but each AD
is 16 bytes and carries its own partition reference, used both for AED
continuation resolution and for the final lookup. -/
def grub_udf_walk_long (env : RBEnv) :
    Nat → (Nat → Nat) → Nat → Nat → Nat → Bool → RBOut
  | 0, _, _, _, _, _ => .fuelOut
  | fuel + 1, m, a, len, fb, bufA =>
    if len < 16 then .exhausted
    else
      let adLength := u32At m a
      let adBlockNum := u32At m (a + 4)
      let adPartRef := u16At m (a + 8)
      let adlen := adLength % 1073741824
      let adtype := adLength / 1073741824
      if adtype = 3 then
        let sec := (grub_udf_get_block env adPartRef adBlockNum).2
        if bufA = false ∧ env.allocOk = false then .allocFail
        else
          match env.aedRead (sec <<< env.lbshift) with
          | none => .aedReadErr
          | some m2 =>
            if u16At m2 0 ≠ GRUB_UDF_TAG_IDENT_AED then .aedBadTag
            else grub_udf_walk_long env fuel m2 GRUB_UDF_AED_SIZE
                   (u32At m2 AED_AE_LEN_OFF) fb true
      else if fb < adlen then
        if adBlockNum &&& GRUB_UDF_EXT_MASK ≠ 0 then .sparse
        else
          let r := grub_udf_get_block env adPartRef adBlockNum
          .found (r.2 + (fb >>> (GRUB_DISK_SECTOR_BITS + env.lbshift))) r.1
      else grub_udf_walk_long env fuel m (a + 16) (len - 16) (fb - adlen) bufA

/-- The byte address of the AD area inside a node block: ext_attr[0] +
ext_attr_length, from the FE fields when the tag is FE and the EFE fields
otherwise. -/
def udf_ad_ptr (node : UdfNode) : Nat :=
  if u16At node.mem 0 = GRUB_UDF_TAG_IDENT_FE
  then FE_EXT_ATTR_OFF + u32At node.mem FE_EXT_ATTR_LENGTH_OFF
  else EFE_EXT_ATTR_OFF + u32At node.mem EFE_EXT_ATTR_LENGTH_OFF

/-- The byte length of the AD area, from the FE or EFE alloc_descs_length
field as the tag selects. -/
def udf_ad_len (node : UdfNode) : Nat :=
  if u16At node.mem 0 = GRUB_UDF_TAG_IDENT_FE
  then u32At node.mem FE_ALLOC_DESCS_LENGTH_OFF
  else u32At node.mem EFE_ALLOC_DESCS_LENGTH_OFF

/-- The filebytes a file-block index maps to: fileblock * U32(lvd.bsize) in
u64. -/
def udf_filebytes (env : RBEnv) (fileblock : Nat) : Nat :=
  fileblock * (env.bsize % 4294967296) % 18446744073709551616

/-- grub_udf_read_block from udf.c, instrumented to keep the distinct
outcomes apart: dispatch on the FE/EFE tag for the AD area pointer and
length, compute filebytes = fileblock * bsize (u64), and run the short or
long walk as the ICBTag strategy selects (the C else branch covers every
strategy other than AD_SHORT). -/
def grub_udf_read_block_r (env : RBEnv) (node : UdfNode) (fileblock fuel : Nat) : RBOut :=
  let t := u16At node.mem 0
  if t = GRUB_UDF_TAG_IDENT_FE ∨ t = GRUB_UDF_TAG_IDENT_EFE then
    if u16At node.mem FE_ICBTAG_FLAGS_OFF &&& GRUB_UDF_ICBTAG_FLAG_AD_MASK = 0 then
      grub_udf_walk_short env node.part_ref fuel node.mem (udf_ad_ptr node)
        (udf_ad_len node) (udf_filebytes env fileblock) false
    else
      grub_udf_walk_long env fuel node.mem (udf_ad_ptr node)
        (udf_ad_len node) (udf_filebytes env fileblock) false
  else .invalidFe

/-- grub_udf_read_block as the caller sees it: the single numeric return
value. -/
def grub_udf_read_block (env : RBEnv) (node : UdfNode) (fileblock fuel : Nat) : Nat :=
  rbToAddr (grub_udf_read_block_r env node fileblock fuel)

/-- The effective short-AD sequence of a node: the AD list with every
type-3 continuation followed (requiring the AED read to succeed and its tag
to be 258), as (length, position) pairs.  none when the chain has an error
or does not close within fuel. -/
def grub_udf_flatten_short (env : RBEnv) (pr : Nat) :
    Nat → (Nat → Nat) → Nat → Nat → Option (List (Nat × Nat))
  | 0, _, _, _ => none
  | fuel + 1, m, a, len =>
    if len < 8 then some []
    else
      let adLength := u32At m a
      let adPos := u32At m (a + 4)
      if adLength / 1073741824 = 3 then
        let sec := (grub_udf_get_block env pr adPos).2
        match env.aedRead (sec <<< env.lbshift) with
        | none => none
        | some m2 =>
          if u16At m2 0 ≠ GRUB_UDF_TAG_IDENT_AED then none
          else grub_udf_flatten_short env pr fuel m2 GRUB_UDF_AED_SIZE
                 (u32At m2 AED_AE_LEN_OFF)
      else ((adLength, adPos) :: ·) <$> grub_udf_flatten_short env pr fuel m (a + 8) (len - 8)

/-- The effective long-AD sequence, as (length, block_num, part_ref)
triples. -/
def grub_udf_flatten_long (env : RBEnv) :
    Nat → (Nat → Nat) → Nat → Nat → Option (List (Nat × Nat × Nat))
  | 0, _, _, _ => none
  | fuel + 1, m, a, len =>
    if len < 16 then some []
    else
      let adLength := u32At m a
      let adBlockNum := u32At m (a + 4)
      let adPartRef := u16At m (a + 8)
      if adLength / 1073741824 = 3 then
        let sec := (grub_udf_get_block env adPartRef adBlockNum).2
        match env.aedRead (sec <<< env.lbshift) with
        | none => none
        | some m2 =>
          if u16At m2 0 ≠ GRUB_UDF_TAG_IDENT_AED then none
          else grub_udf_flatten_long env fuel m2 GRUB_UDF_AED_SIZE
                 (u32At m2 AED_AE_LEN_OFF)
      else ((adLength, adBlockNum, adPartRef) :: ·) <$>
             grub_udf_flatten_long env fuel m (a + 16) (len - 16)

/-- The claim's description of short-AD resolution, over the effective AD
sequence: at the first AD whose (masked) length exceeds the remaining
filebytes, not-present (sparse) if the position carries EXT_MASK, else the
partition lookup of the position plus filebytes >> (9+lbshift); not-present
(exhausted) past the end of the sequence. -/
def resolve_fileblock_claim_short (env : RBEnv) (pr : Nat) :
    List (Nat × Nat) → Nat → RBOut
  | [], _ => .exhausted
  | (l, p) :: rest, fb =>
    let adlen := l % 1073741824
    if fb < adlen then
      if p &&& GRUB_UDF_EXT_MASK ≠ 0 then .sparse
      else
        let r := grub_udf_get_block env pr p
        .found (r.2 + (fb >>> (GRUB_DISK_SECTOR_BITS + env.lbshift))) r.1
    else resolve_fileblock_claim_short env pr rest (fb - adlen)

/-- The claim's description of long-AD resolution over the effective
sequence; each AD supplies its own partition reference. -/
def resolve_fileblock_claim_long (env : RBEnv) :
    List (Nat × Nat × Nat) → Nat → RBOut
  | [], _ => .exhausted
  | (l, bn, pr) :: rest, fb =>
    let adlen := l % 1073741824
    if fb < adlen then
      if bn &&& GRUB_UDF_EXT_MASK ≠ 0 then .sparse
      else
        let r := grub_udf_get_block env pr bn
        .found (r.2 + (fb >>> (GRUB_DISK_SECTOR_BITS + env.lbshift))) r.1
    else resolve_fileblock_claim_long env rest (fb - adlen)

/-!  ## The file reader (grub_udf_read_file)  -/

/-- The abstract codes of the external grub_fshelp file types used by the
hook interface. -/
def FSHELP_REG : Nat := 1
def FSHELP_DIR : Nat := 2
def FSHELP_SYMLINK : Nat := 3

/-- Result of grub_udf_read_file.  The AD_IN_ICB case is served inline:
`inline out ret` carries the bytes memcpy'd into the caller's buffer (none
when the caller passed a null buffer) and the returned count.  AD_EXT is
the "invalid extent type" error path returning 0.  Every other strategy is
delegated to the external grub_fshelp_read_file with the same position and
length. -/
inductive RFRes where
  | inline (out : Option (List Nat)) (ret : Nat)
  | invalidExtent
  | delegated (pos len : Nat)
deriving DecidableEq

/-- The inline-data base pointer of a node: ext_attr[0] + ext_attr_length,
picked from the FE fields when the tag is FE and from the EFE fields
otherwise, exactly as the conditional in grub_udf_read_file. -/
def udf_inline_base (node : UdfNode) : Nat :=
  if u16At node.mem 0 = GRUB_UDF_TAG_IDENT_FE
  then FE_EXT_ATTR_OFF + u32At node.mem FE_EXT_ATTR_LENGTH_OFF
  else EFE_EXT_ATTR_OFF + u32At node.mem EFE_EXT_ATTR_LENGTH_OFF

/-- grub_udf_read_file from udf.c, switch on ICBTag flags & AD_MASK:
AD_IN_ICB copies len bytes from base+pos and returns len; AD_EXT errors;
anything else is handed to grub_fshelp_read_file. -/
def grub_udf_read_file (node : UdfNode) (wantBuf : Bool) (pos len : Nat) : RFRes :=
  let strat := u16At node.mem FE_ICBTAG_FLAGS_OFF &&& GRUB_UDF_ICBTAG_FLAG_AD_MASK
  if strat = 3 then
    .inline
      (if wantBuf then
        some ((List.range len).map (fun j => u8At node.mem (udf_inline_base node + pos + j)))
       else none)
      len
  else if strat = 2 then .invalidExtent
  else .delegated pos len

/-!  ## UUID derivation (gen_uuid_from_volset)  -/

/-- grub_isxdigit over a byte. -/
def grub_isxdigit (c : Nat) : Bool :=
  (48 ≤ c ∧ c ≤ 57) ∨ (97 ≤ c ∧ c ≤ 102) ∨ (65 ≤ c ∧ c ≤ 70)

/-- grub_tolower over a byte. -/
def grub_tolower (c : Nat) : Nat :=
  if 65 ≤ c ∧ c ≤ 90 then c + 32 else c

/-- One hex digit, lowercase, as printf %x renders it. -/
def hexDigit (n : Nat) : Nat :=
  if n < 10 then 48 + n else 87 + n

/-- printf %02x of one byte. -/
def hexByte (b : Nat) : List Nat :=
  [hexDigit (b % 256 / 16), hexDigit (b % 16)]

/-- gen_uuid_from_volset from udf.c.  The argument is the NUL-terminated C
string handed in (modelled as the byte list; grub_strlen stops at the first
zero byte).  Returns the UUID bytes, or none when the identifier is shorter
than 8 characters. -/
def gen_uuid_from_volset (volset_ident : List Nat) : Option (List Nat) :=
  let s := volset_ident.takeWhile (· ≠ 0)
  let len0 := s.length
  if len0 < 8 then none
  else
    let len := min len0 16
    let buf := (s.take len).map (· % 256) ++ List.replicate (17 - len) 0
    let nonhexpos : Nat :=
      ((List.range 16).find? (fun i => ! grub_isxdigit (buf.getD i 0))).getD 16
    if nonhexpos < 8 then
      some ((buf.take 8).map hexByte).flatten
    else if nonhexpos < 16 then
      some ((buf.take 8).map grub_tolower
            ++ (((buf.drop 8).take 4).map hexByte).flatten)
    else
      some ((buf.take 16).map grub_tolower)

/-- The claim's description of the UUID rule: v truncated / zero-padded to
16 bytes, k the index of the first non-hex-digit among the 16 (16 if all
hex); hex of bytes 0..8 when k < 8, first 8 lowercased then hex of bytes
8..12 when 8 <= k < 16, all 16 lowercased when k = 16; none when the
identifier has fewer than 8 characters. -/
def uuid_claim (volset_ident : List Nat) : Option (List Nat) :=
  let s := volset_ident.takeWhile (· ≠ 0)
  if s.length < 8 then none
  else
    let padded := (s.take 16).map (· % 256) ++ List.replicate (16 - min s.length 16) 0
    let k : Nat :=
      ((List.range 16).find? (fun i => ! grub_isxdigit (padded.getD i 0))).getD 16
    if k < 8 then some ((padded.take 8).map hexByte).flatten
    else if k < 16 then
      some ((padded.take 8).map grub_tolower
            ++ (((padded.drop 8).take 4).map hexByte).flatten)
    else some (padded.map grub_tolower)

/-!  ## Symlink decoding (grub_udf_read_symlink)  -/

/-- Outcome of the symlink component walk: the final path bytes, the
"invalid symlink" failure, or an access to the raw buffer at an offset not
filled from disk (out of bounds of the allocation, undefined behaviour in
the C). -/
inductive SymRes where
  | ok (out : List Nat)
  | err
  | oob
  | fuelOut
deriving DecidableEq

/-- One byte of the raw symlink buffer; none past its end. -/
def symByte (raw : List Nat) (i : Nat) : Option Nat :=
  (raw.get? i).map (· % 256)

/-- The component walk of grub_udf_read_symlink.  raw holds the bytes read
from disk; sz is the bound the C loop actually uses (the enlarged output
size, after the in-place reassignment of sz); i is ptr - raw; acc the bytes
written to the output so far (strlen after a type-5 component stops at the
first NUL, hence the takeWhile).  Byte reads follow the order of the C,
short-circuit included (ptr[2], then ptr[3], then ptr[1], then *ptr, then
the identifier bytes). -/
def grub_udf_symlink_walk (raw : List Nat) (sz : Nat) :
    Nat → Nat → List Nat → SymRes
  | 0, _, _ => .fuelOut
  | fuel + 1, i, acc =>
    if sz ≤ i then .ok acc
    else if sz < i + 4 then .err
    else
      match symByte raw (i + 2) with
      | none => .oob
      | some b2 =>
        if b2 ≠ 0 then .err
        else
          match symByte raw (i + 3) with
          | none => .oob
          | some b3 =>
          if b3 ≠ 0 then .err
          else
          match symByte raw (i + 1) with
          | some l =>
            let s := 4 + l
            if sz < i + s then .err
            else
              match symByte raw i with
              | some t =>
                if t = 1 then
                  if l ≠ 0 then .err
                  else grub_udf_symlink_walk raw sz fuel (i + s) [47]
                else if t = 2 then grub_udf_symlink_walk raw sz fuel (i + s) [47]
                else if t = 3 then
                  grub_udf_symlink_walk raw sz fuel (i + s)
                    (acc ++ (if acc = [] then [] else [47]) ++ [46, 46])
                else if t = 4 then
                  grub_udf_symlink_walk raw sz fuel (i + s)
                    (acc ++ (if acc = [] then [] else [47]) ++ [46])
                else if t = 5 then
                  if raw.length < i + s then .oob
                  else
                    match read_string ((raw.drop (i + 4)).take l) with
                    | none => .err
                    | some name =>
                      grub_udf_symlink_walk raw sz fuel (i + s)
                        (acc ++ (if acc = [] then [] else [47])
                             ++ name.takeWhile (· ≠ 0))
                else .err
              | none => .oob
          | none => .oob

/-- grub_udf_read_symlink from udf.c, over the raw file content already
read from disk.  Files shorter than 4 bytes are rejected; then sz is
reassigned to 2*sz+1 (the output allocation size) and the walk runs against
that bound. -/
def grub_udf_read_symlink (raw : List Nat) (fuel : Nat) : SymRes :=
  if raw.length < 4 then .err
  else grub_udf_symlink_walk raw (2 * raw.length + 1) fuel 0 []

/-!  ## The volume mounter (grub_udf_mount)  -/

/-- The AVDP fields the probe inspects. -/
structure AvdpRec where
  tag_ident : Nat
  tag_location : Nat
  vds_start : Nat
deriving DecidableEq

/-- A Partition Descriptor as collected by the VDS scan. -/
structure PdRec where
  part_num : Nat
  start : Nat
deriving DecidableEq

/-- One embedded partition map of the LVD (type byte and the type-1
part_num field). -/
structure PmRec where
  ptype : Nat
  part_num : Nat

/-- The LVD fields mount uses: block size, the partition-map area (indexed
by entry ordinal, abstracting the byte walk by ppm->length), their count,
and the root fileset long AD. -/
structure LvdRec where
  bsize : Nat
  num_part_maps : Nat
  partMaps : Nat → PmRec
  rf_block_num : Nat
  rf_part_ref : Nat

/-- The PVD fields kept (only the volume-set identifier is ever consumed). -/
structure PvdRec where
  volset_ident : List Nat
deriving DecidableEq

/-- A fileset descriptor: its tag and root ICB address. -/
structure FsdRec where
  tag_ident : Nat
  ri_block_num : Nat
  ri_part_ref : Nat
deriving DecidableEq

/-- The disk as grub_udf_mount reads it: one typed oracle per descriptor
read, keyed by the 512-byte sector passed to grub_disk_read; none is a
failing read.  initPvd/initLvd are the uninitialised contents of the
grub_udf_data fields before any PVD/LVD is seen. -/
structure MountEnv where
  readAvdp : Nat → Option AvdpRec
  readVrsMagic : Nat → Option (List Nat)
  readTagIdent : Nat → Option Nat
  readPvd : Nat → Option PvdRec
  readPd : Nat → Option PdRec
  readLvd : Nat → Option LvdRec
  readFileset : Nat → Option FsdRec
  initPvd : PvdRec
  initLvd : LvdRec

/-- The candidate AVDP sectors, from sblocklist (the 0 terminator ends the
list). -/
def udf_sblocklist : List Nat := [256, 512]

/-- Inner loop of the AVDP probe at one lbshift: scan the candidates in
order; none is a failing disk read (mount fails at once); some none means
no candidate matched; some (some s) is the first candidate whose tag_ident
is AVDP and whose tag_location equals the candidate, with s the vds.start
recorded into block. -/
def grub_udf_probe_inner (env : MountEnv) (lb : Nat) :
    List Nat → Option (Option Nat)
  | [] => some none
  | c :: rest =>
    match env.readAvdp (c <<< lb) with
    | none => none
    | some a =>
      if a.tag_ident % 65536 = GRUB_UDF_TAG_IDENT_AVDP ∧ a.tag_location % 4294967296 = c
      then some (some (a.vds_start % 4294967296))
      else grub_udf_probe_inner env lb rest

/-- Outer loop of the AVDP probe over lbshift = 0..3: after the inner scan
the C tests `if (block) break`, so a match whose vds.start is 0 leaves
block at 0 and moves on to the next lbshift (skipping the remaining
candidates of the current one).  Returns the recorded (lbshift, vds start)
or none when mount fails ("not an UDF filesystem": a failing read or no
accepted probe). -/
def grub_udf_avdp_probe (env : MountEnv) : List Nat → Option (Nat × Nat)
  | [] => none
  | lb :: rest =>
    match grub_udf_probe_inner env lb udf_sblocklist with
    | none => none
    | some none => grub_udf_avdp_probe env rest
    | some (some s) => if s = 0 then grub_udf_avdp_probe env rest else some (lb, s)

/-- The claim's reading of the probe: a single pass over the
(lbshift, candidate) pairs in iteration order that accepts the first probe
whose tag_ident is AVDP and whose tag_location equals the candidate,
recording that lbshift and the vds start. -/
def avdp_probe_claim (env : MountEnv) : List (Nat × Nat) → Option (Nat × Nat)
  | [] => none
  | (lb, c) :: rest =>
    match env.readAvdp (c <<< lb) with
    | none => none
    | some a =>
      if a.tag_ident % 65536 = GRUB_UDF_TAG_IDENT_AVDP ∧ a.tag_location % 4294967296 = c
      then some (lb, a.vds_start % 4294967296)
      else avdp_probe_claim env rest

/-- The probe order the claim describes: lbshift outer, candidate inner. -/
def avdp_probe_order : List (Nat × Nat) :=
  [(0, 256), (0, 512), (1, 256), (1, 512), (2, 256), (2, 512), (3, 256), (3, 512)]

/-- The VRS magics (5 bytes each). -/
def GRUB_UDF_STD_IDENT_NSR02 : List Nat := [78, 83, 82, 48, 50]
def GRUB_UDF_STD_IDENT_NSR03 : List Nat := [78, 83, 82, 48, 51]
def GRUB_UDF_STD_IDENT_BEA01 : List Nat := [66, 69, 65, 48, 49]
def GRUB_UDF_STD_IDENT_BOOT2 : List Nat := [66, 79, 79, 84, 50]
def GRUB_UDF_STD_IDENT_CD001 : List Nat := [67, 68, 48, 48, 49]
def GRUB_UDF_STD_IDENT_CDW02 : List Nat := [67, 68, 87, 48, 50]
def GRUB_UDF_STD_IDENT_TEA01 : List Nat := [84, 69, 65, 48, 49]

/-- Why a mount run ended without a volume. -/
inductive MErr where
  | notUdf
  | tooManyPds
  | tooManyPms
  | partmapType
  | invalidTagIdent
  | cantFindPD
  | invalidPartRef
  | invalidFsd
  | fuelOut
deriving DecidableEq

/-- The Volume Recognition Sequence scan: step through the VRS sectors
until an NSR02/NSR03 magic confirms UDF; the five other known magics are
skipped; anything else, or a failing read, is "not an UDF filesystem". -/
def grub_udf_vrs_scan (env : MountEnv) (lb : Nat) : Nat → Nat → Except MErr Unit
  | 0, _ => .error .fuelOut
  | fuel + 1, vblock =>
    match env.readVrsMagic (vblock <<< lb) with
    | none => .error .notUdf
    | some magic =>
      if magic = GRUB_UDF_STD_IDENT_NSR03 ∨ magic = GRUB_UDF_STD_IDENT_NSR02 then .ok ()
      else if magic = GRUB_UDF_STD_IDENT_BEA01 ∨ magic = GRUB_UDF_STD_IDENT_BOOT2
              ∨ magic = GRUB_UDF_STD_IDENT_CD001 ∨ magic = GRUB_UDF_STD_IDENT_CDW02
              ∨ magic = GRUB_UDF_STD_IDENT_TEA01 then
        grub_udf_vrs_scan env lb fuel (vblock + (2047 >>> (lb + GRUB_DISK_SECTOR_BITS)) + 1)
      else .error .notUdf

/-- Collect `count` partition maps from the LVD partition-map area starting
at entry ordinal idx: every map must be type 1, and its part_num is
appended; a non-type-1 map fails the mount. -/
def grub_udf_collect_pms (pm : Nat → PmRec) : Nat → Nat → Option (List Nat)
  | _, 0 => some []
  | idx, k + 1 =>
    if (pm idx).ptype % 256 ≠ 1 then none
    else ((pm idx).part_num :: ·) <$> grub_udf_collect_pms pm (idx + 1) k

/-- The state accumulated by the VDS iteration. -/
structure VdsSt where
  pds : List PdRec
  pms : List Nat
  pvd : PvdRec
  lvd : LvdRec

/-- The VDS iteration of grub_udf_mount: read the tag at each block; PVD
and LVD overwrite their slots, PDs append (bounded by MAX_PDS), an LVD's
embedded partition maps append (bounded by MAX_PMS, type-1 only), idents
above TD fail, TD terminates, and any other ident is skipped; then the
block number advances. -/
def grub_udf_vds_scan (env : MountEnv) (lb : Nat) :
    Nat → Nat → VdsSt → Except MErr VdsSt
  | 0, _, _ => .error .fuelOut
  | fuel + 1, block, st =>
    match env.readTagIdent (block <<< lb) with
    | none => .error .notUdf
    | some t0 =>
      let t := t0 % 65536
      if t = GRUB_UDF_TAG_IDENT_PVD then
        match env.readPvd (block <<< lb) with
        | none => .error .notUdf
        | some p => grub_udf_vds_scan env lb fuel (block + 1) { st with pvd := p }
      else if t = GRUB_UDF_TAG_IDENT_PD then
        if GRUB_UDF_MAX_PDS ≤ st.pds.length then .error .tooManyPds
        else
          match env.readPd (block <<< lb) with
          | none => .error .notUdf
          | some pd =>
            grub_udf_vds_scan env lb fuel (block + 1) { st with pds := st.pds ++ [pd] }
      else if t = GRUB_UDF_TAG_IDENT_LVD then
        match env.readLvd (block <<< lb) with
        | none => .error .notUdf
        | some l =>
          if GRUB_UDF_MAX_PMS < st.pms.length + l.num_part_maps % 4294967296 then
            .error .tooManyPms
          else
            match grub_udf_collect_pms l.partMaps 0 (l.num_part_maps % 4294967296) with
            | none => .error .partmapType
            | some newPms =>
              grub_udf_vds_scan env lb fuel (block + 1)
                { st with pms := st.pms ++ newPms, lvd := l }
      else if GRUB_UDF_TAG_IDENT_TD < t then .error .invalidTagIdent
      else if t = GRUB_UDF_TAG_IDENT_TD then .ok st
      else grub_udf_vds_scan env lb fuel (block + 1) st

/-- The partition-map fixup loop of grub_udf_mount: each partition map's
part_num is replaced by the index of the first PD whose part_num equals it;
if none matches, mount fails ("can't find PD"). -/
def partition_fixup (pds : List PdRec) : List Nat → Option (List Nat)
  | [] => some []
  | m :: rest =>
    match pds.findIdx? (fun pd => pd.part_num = m) with
    | none => none
    | some j => (j :: ·) <$> partition_fixup pds rest

/-- grub_udf_get_block over the mounted tables held as lists (the fsd step
of mount calls it before any node exists). -/
def grub_udf_get_block_d (pds : List PdRec) (pms : List Nat) (part_ref block : Nat) :
    Bool × Nat :=
  let pr := part_ref % 65536
  if pms.length ≤ pr then (true, 0)
  else (false, ((pds.getD (pms.getD pr 0 % 65536) ⟨0, 0⟩).start % 4294967296
                + block % 4294967296) % 4294967296)

/-- The mounted volume data: what grub_udf_mount returns. -/
structure UdfVol where
  lbshift : Nat
  pvd : PvdRec
  lvd : LvdRec
  pds : List PdRec
  pms : List Nat
  ri_block_num : Nat
  ri_part_ref : Nat

/-- grub_udf_mount from udf.c: AVDP probe (fixing lbshift and the VDS start
block), VRS scan, VDS iteration, partition-map fixup, then the root fileset
descriptor read and tag check. -/
def grub_udf_mount (env : MountEnv) (fuelV fuelD : Nat) : Except MErr UdfVol :=
  match grub_udf_avdp_probe env [0, 1, 2, 3] with
  | none => .error .notUdf
  | some (lb, start) =>
    match grub_udf_vrs_scan env lb fuelV ((32767 >>> (lb + GRUB_DISK_SECTOR_BITS)) + 1) with
    | .error e => .error e
    | .ok _ =>
      match grub_udf_vds_scan env lb fuelD start ⟨[], [], env.initPvd, env.initLvd⟩ with
      | .error e => .error e
      | .ok st =>
        match partition_fixup st.pds st.pms with
        | none => .error .cantFindPD
        | some pms2 =>
          let r := grub_udf_get_block_d st.pds pms2 st.lvd.rf_part_ref st.lvd.rf_block_num
          if r.1 then .error .invalidPartRef
          else
            match env.readFileset (r.2 <<< lb) with
            | none => .error .notUdf
            | some fs =>
              if fs.tag_ident % 65536 ≠ GRUB_UDF_TAG_IDENT_FSD then .error .invalidFsd
              else .ok ⟨lb, st.pvd, st.lvd, st.pds, pms2, fs.ri_block_num, fs.ri_part_ref⟩

/-!  ## The directory walker (grub_udf_iterate_dir)  -/

/-- The decoded 38-byte FID header grub_udf_iterate_dir reads at each
offset, plus the ICB address used to materialise the child node.  Fields
are the raw stored values; the U16/u8 masks are applied where the code
reads them. -/
structure FidRec where
  tag_ident : Nat
  characteristics : Nat
  file_ident_length : Nat
  imp_use_length : Nat
  icb_block_num : Nat
  icb_part_ref : Nat
deriving DecidableEq

/-- The child node data the directory hook consumes (the ICBTag file
type, deciding the symlink override). -/
structure ChildRec where
  file_type : Nat
deriving DecidableEq

/-- A directory iteration environment.  readDirent abstracts the
grub_udf_read_file call that fills the 38-byte dirent at an offset (none:
short read or error, the C compares the return against sizeof and bails);
readIdent the grub_udf_read_file call for the file_ident_length raw
identifier bytes just past the header+imp_use (none: short read);
readIcb abstracts grub_udf_read_icb on the FID's ICB address (none: its
error paths); hook is the caller's callback, returning true to stop.
allocOk models the child-node grub_malloc calls. -/
structure DirEnv where
  file_size : Nat
  readDirent : Nat → Option FidRec
  readIdent : Nat → Nat → Option (List Nat)
  readIcb : Nat → Nat → Option ChildRec
  hook : List Nat → Nat → Bool
  allocOk : Bool

/-- How one iteration of grub_udf_iterate_dir ended / what the whole run
returned: stopped = the hook returned nonzero (C returns 1); finished =
offset reached file_size (C returns 0, no error); failed = any error path
returning 0 with grub_errno set or an allocation failure. -/
inductive IterRes where
  | stopped
  | finished
  | failed
  | fuelOut
deriving DecidableEq

/-- One emitted directory entry: the name bytes and fshelp type passed to
the hook. -/
structure EmitRec where
  name : List Nat
  ftype : Nat
deriving DecidableEq

/-- What a directory loop run produces: the entries handed to the hook, the
offsets at which FID iterations started (one per pass of the while test
that entered the body), and how the run ended. -/
structure DirRun where
  emits : List EmitRec
  offsets : List Nat
  res : IterRes
deriving DecidableEq

/-- The offset just past the FID header and implementation-use area:
offset += sizeof (dirent) + U16 (imp_use_length), in u64. -/
def fid_ident_offset (offset : Nat) (d : FidRec) : Nat :=
  (offset + GRUB_UDF_FID_SIZE + d.imp_use_length % 65536) % 18446744073709551616

/-- The next iteration's offset: the identifier offset plus
file_ident_length, rounded up to a 4-byte boundary, in u64
(offset = (offset + file_ident_length + 3) & ~3). -/
def fid_next_offset (offset : Nat) (d : FidRec) : Nat :=
  ((fid_ident_offset offset d + d.file_ident_length % 256 + 3) % 18446744073709551616)
    / 4 * 4

/-- The while loop of grub_udf_iterate_dir.  Each pass with
offset < file_size reads and checks the FID, advances past the
implementation-use area, then (unless the entry is DELETED) materialises
the child and either emits ".." (PARENT) or reads and decodes the file
identifier and calls the hook; a read_string failure prints and clears the
error and skips the entry (the hook is not called); finally the offset is
rounded up past the identifier to a 4-byte boundary. -/
def grub_udf_iterate_dir_loop (env : DirEnv) : Nat → Nat → DirRun
  | 0, _ => ⟨[], [], .fuelOut⟩
  | fuel + 1, offset =>
    if env.file_size ≤ offset then ⟨[], [], .finished⟩
    else
      match env.readDirent offset with
      | none => ⟨[], [offset], .failed⟩
      | some d =>
        if d.tag_ident % 65536 ≠ GRUB_UDF_TAG_IDENT_FID then ⟨[], [offset], .failed⟩
        else
          let next := fid_next_offset offset d
          if d.characteristics % 256 &&& GRUB_UDF_FID_CHAR_DELETED ≠ 0 then
            let r := grub_udf_iterate_dir_loop env fuel next
            ⟨r.emits, offset :: r.offsets, r.res⟩
          else if env.allocOk = false then ⟨[], [offset], .failed⟩
          else
            match env.readIcb d.icb_part_ref d.icb_block_num with
            | none => ⟨[], [offset], .failed⟩
            | some child =>
              if d.characteristics % 256 &&& GRUB_UDF_FID_CHAR_PARENT ≠ 0 then
                if env.hook [46, 46] FSHELP_DIR then
                  ⟨[⟨[46, 46], FSHELP_DIR⟩], [offset], .stopped⟩
                else
                  let r := grub_udf_iterate_dir_loop env fuel next
                  ⟨⟨[46, 46], FSHELP_DIR⟩ :: r.emits, offset :: r.offsets, r.res⟩
              else
                let ftype :=
                  if child.file_type % 256 = GRUB_UDF_ICBTAG_TYPE_SYMLINK then FSHELP_SYMLINK
                  else if d.characteristics % 256 &&& GRUB_UDF_FID_CHAR_DIRECTORY ≠ 0 then
                    FSHELP_DIR
                  else FSHELP_REG
                match env.readIdent (fid_ident_offset offset d) (d.file_ident_length % 256) with
                | none => ⟨[], [offset], .failed⟩
                | some raws =>
                  match read_string raws with
                  | none =>
                    let r := grub_udf_iterate_dir_loop env fuel next
                    ⟨r.emits, offset :: r.offsets, r.res⟩
                  | some name =>
                    if env.hook name ftype then ⟨[⟨name, ftype⟩], [offset], .stopped⟩
                    else
                      let r := grub_udf_iterate_dir_loop env fuel next
                      ⟨⟨name, ftype⟩ :: r.emits, offset :: r.offsets, r.res⟩

/-- grub_udf_iterate_dir from udf.c: a child copy of the directory is
allocated and "." is emitted first; then the FID loop runs from offset 0. -/
def grub_udf_iterate_dir (env : DirEnv) (fuel : Nat) : DirRun :=
  if env.allocOk = false then ⟨[], [], .failed⟩
  else if env.hook [46] FSHELP_DIR then ⟨[⟨[46], FSHELP_DIR⟩], [], .stopped⟩
  else
    let r := grub_udf_iterate_dir_loop env fuel 0
    ⟨⟨[46], FSHELP_DIR⟩ :: r.emits, r.offsets, r.res⟩

/-!  ## Concrete instances

Small concrete disks, nodes and directory environments used to instantiate
the theorems below.  Memories are sparse functions: unmentioned bytes are
zero. -/

/-- A resolution environment with one partition map (index 0) onto a PD
starting at sector 100, 2048-byte blocks (lbshift 2). -/
def rbEnvW : RBEnv :=
  ⟨2, 2048, 1, fun _ => 0, fun _ => 100, fun _ => none, true⟩

/-- An FE node with short-AD strategy and a single recorded AD of 2048
bytes at partition block 10 (tag 261 at offset 0, alloc_descs_length 8 at
172, AD length 2048 and position 10 at 176). -/
def nodeWmem : Nat → Nat := fun a =>
  if a = 0 then 5 else if a = 1 then 1
  else if a = 172 then 8
  else if a = 177 then 8
  else if a = 180 then 10 else 0

def nodeW : UdfNode := ⟨0, nodeWmem⟩

/-- As nodeW but the AD position carries EXT_MASK (byte 183 = 0x40): a
sparse extent. -/
def nodeYmem : Nat → Nat := fun a =>
  if a = 0 then 5 else if a = 1 then 1
  else if a = 172 then 8
  else if a = 177 then 8
  else if a = 183 then 64 else 0

def nodeY : UdfNode := ⟨0, nodeYmem⟩

/-- A resolution environment with a single partition map, 512-byte blocks. -/
def rbEnvX : RBEnv :=
  ⟨0, 512, 1, fun _ => 0, fun _ => 100, fun _ => none, true⟩

/-- An FE node with long-AD strategy (flags byte 1 at offset 34) and one
recorded long AD of 1024 bytes whose part_ref (5, at byte 184) is out of
range for rbEnvX (npm = 1). -/
def nodeXmem : Nat → Nat := fun a =>
  if a = 0 then 5 else if a = 1 then 1
  else if a = 34 then 1
  else if a = 172 then 16
  else if a = 177 then 4
  else if a = 184 then 5 else 0

def nodeX : UdfNode := ⟨0, nodeXmem⟩

/-- An uninitialised LVD slot. -/
def lvdJunk : LvdRec := ⟨0, 0, fun _ => ⟨0, 0⟩, 0, 0⟩

/-- A disk refuting the first-match reading of the AVDP probe: the probe at
(lbshift 0, candidate 256) matches but its vds.start is 0, the probes at
sector 512 do not match, and the probe at (lbshift 1, candidate 512) =
sector 1024 matches with vds.start 7. -/
def mEnvC3 : MountEnv where
  readAvdp := fun sec =>
    if sec = 256 then some ⟨2, 256, 0⟩
    else if sec = 1024 then some ⟨2, 512, 7⟩
    else some ⟨0, 0, 0⟩
  readVrsMagic := fun _ => none
  readTagIdent := fun _ => none
  readPvd := fun _ => none
  readPd := fun _ => none
  readLvd := fun _ => none
  readFileset := fun _ => none
  initPvd := ⟨[]⟩
  initLvd := lvdJunk

/-- A disk on which no AVDP probe ever matches. -/
def mEnvNone : MountEnv where
  readAvdp := fun _ => some ⟨0, 0, 0⟩
  readVrsMagic := fun _ => none
  readTagIdent := fun _ => none
  readPvd := fun _ => none
  readPd := fun _ => none
  readLvd := fun _ => none
  readFileset := fun _ => none
  initPvd := ⟨[]⟩
  initLvd := lvdJunk

/-- The LVD of the small well-formed disk: one type-1 partition map whose
part_num is 3, root fileset at partition block 9 of partition map 0. -/
def lvdOk : LvdRec := ⟨2048, 1, fun _ => ⟨1, 3⟩, 9, 0⟩

/-- As lvdOk but the partition map names part_num 4, which no PD carries. -/
def lvdBad : LvdRec := ⟨2048, 1, fun _ => ⟨1, 4⟩, 9, 0⟩

/-- A small well-formed disk: AVDP at sector 256 (lbshift 0) pointing the
VDS at block 50; NSR02 at the first VRS sector (64); the VDS holds one PD
(part_num 3, start 100) at 50, the LVD at 51, and the terminator at 52; the
fileset descriptor sits at sector 109 = 100 + 9. -/
def mEnvOk : MountEnv where
  readAvdp := fun sec => if sec = 256 then some ⟨2, 256, 50⟩ else none
  readVrsMagic := fun sec => if sec = 64 then some GRUB_UDF_STD_IDENT_NSR02 else none
  readTagIdent := fun sec =>
    if sec = 50 then some 5 else if sec = 51 then some 6
    else if sec = 52 then some 8 else none
  readPvd := fun _ => none
  readPd := fun sec => if sec = 50 then some ⟨3, 100⟩ else none
  readLvd := fun sec => if sec = 51 then some lvdOk else none
  readFileset := fun sec => if sec = 109 then some ⟨256, 77, 0⟩ else none
  initPvd := ⟨[]⟩
  initLvd := lvdJunk

/-- As mEnvOk but with the unmatched partition map: fixup fails. -/
def mEnvBad : MountEnv where
  readAvdp := fun sec => if sec = 256 then some ⟨2, 256, 50⟩ else none
  readVrsMagic := fun sec => if sec = 64 then some GRUB_UDF_STD_IDENT_NSR02 else none
  readTagIdent := fun sec =>
    if sec = 50 then some 5 else if sec = 51 then some 6
    else if sec = 52 then some 8 else none
  readPvd := fun _ => none
  readPd := fun sec => if sec = 50 then some ⟨3, 100⟩ else none
  readLvd := fun sec => if sec = 51 then some lvdBad else none
  readFileset := fun sec => if sec = 109 then some ⟨256, 77, 0⟩ else none
  initPvd := ⟨[]⟩
  initLvd := lvdJunk

/-- The volume mEnvOk mounts to. -/
def volOk : UdfVol := ⟨0, ⟨[]⟩, lvdOk, [⟨3, 100⟩], [0], 77, 0⟩

/-- The VDS state mEnvBad accumulates before fixup. -/
def stBad : VdsSt := ⟨[⟨3, 100⟩], [4], ⟨[]⟩, lvdBad⟩

/-- An IN_ICB file node: tag FE, strategy 3, no extended attributes,
file size 12, inline bytes 72 101 ("He"...) at 176. -/
def nodeZmem : Nat → Nat := fun a =>
  if a = 0 then 5 else if a = 1 then 1
  else if a = 34 then 3
  else if a = 56 then 12
  else if a = 176 then 72
  else if a = 177 then 101 else 0

def nodeZ : UdfNode := ⟨0, nodeZmem⟩

/-- The symlink content of scenario S5: components 3 (parent),
5 "other", 5 "file", each with zero reserved bytes (23 bytes). -/
def s5raw : List Nat :=
  [3, 0, 0, 0,
   5, 6, 0, 0, 8, 111, 116, 104, 101, 114,
   5, 5, 0, 0, 8, 102, 105, 108, 101]

/-- The volume-set identifier of scenario S6. -/
def s6volset : List Nat :=
  [68, 69, 65, 68, 66, 69, 69, 70, 67, 65, 70, 69, 66, 65, 66, 69,
   45, 103, 97, 114, 98, 97, 103, 101]

/-- A deleted-entry FID whose step advances the offset by exactly 4096
bytes (38 + 4058 + 0, already aligned). -/
def dDel : FidRec := ⟨257, 4, 0, 4058, 0, 0⟩

/-- A directory whose file size is 2^64 - 1 and whose every FID read
yields dDel: each iteration advances the u64 offset by 4096 mod 2^64. -/
def dirEnvWrap : DirEnv where
  file_size := 18446744073709551615
  readDirent := fun _ => some dDel
  readIdent := fun _ _ => none
  readIcb := fun _ _ => none
  hook := fun _ _ => false
  allocOk := true

/-- The first entry of the skip directory: a 1-byte file identifier whose
single byte 7 is an invalid OSTA compression identifier. -/
def dBad : FidRec := ⟨257, 0, 1, 0, 0, 0⟩

/-- The second entry: a valid identifier (compression 8, name "b"). -/
def dGood : FidRec := ⟨257, 0, 2, 0, 0, 0⟩

/-- A directory holding the undecodable entry at offset 0 and the valid
entry "b" at offset 40 (file size 80). -/
def dirEnvSkip : DirEnv where
  file_size := 80
  readDirent := fun o => if o = 0 then some dBad else if o = 40 then some dGood else none
  readIdent := fun o l =>
    if o = 38 ∧ l = 1 then some [7]
    else if o = 78 ∧ l = 2 then some [8, 98] else none
  readIcb := fun _ _ => some ⟨0⟩
  hook := fun _ _ => false
  allocOk := true

/-- As dirEnvSkip but every identifier read fails (short read). -/
def dirEnvFail : DirEnv where
  file_size := 80
  readDirent := fun o => if o = 0 then some dBad else if o = 40 then some dGood else none
  readIdent := fun _ _ => none
  readIcb := fun _ _ => some ⟨0⟩
  hook := fun _ _ => false
  allocOk := true

/-!  ## Theorems  -/

/-- Claim C4 (code_bug evidence): for the 4-byte symlink content holding
the single parent component [3,0,0,0], the component walk runs past the
bytes read from disk.  The loop bound is the reassigned sz = 2*4+1 = 9, so
after consuming the four real bytes the walk continues at offset 4 and
reads raw[6] and raw[7], which lie beyond the buffer filled from disk —
contradicting the claim that only offsets below the original size are ever
inspected. -/
theorem claim_C4_symlink_reads_past_raw :
    grub_udf_read_symlink [3, 0, 0, 0] 5 = SymRes.oob := by decide

/-- Claim C5 (code_bug evidence): on the exact S5 content (components
3, 5 "other", 5 "file"; 23 bytes) the walk consumes all three components,
accumulating "../other/file", but then continues — the loop bound is the
reassigned 2*23+1 = 47 — and reads beyond the 23-byte buffer instead of
returning; so read_symlink does not return "../other/file". -/
theorem claim_C5_symlink_s5_oob :
    grub_udf_read_symlink s5raw 9 = SymRes.oob ∧
    grub_udf_read_symlink s5raw 9 ≠
      SymRes.ok [46, 46, 47, 111, 116, 104, 101, 114, 47, 102, 105, 108, 101] := by
  decide

/-- Claim C6: for every node whose ICBTag strategy is AD_IN_ICB and every
offset, len with offset+len <= file_size, read_file returns len, and when a
buffer is passed it receives exactly the len bytes starting at the inline
base (&ext_attr[0] + ext_attr_length of the FE or EFE) plus the offset. -/
theorem claim_C6_read_file_in_icb :
    ∀ (node : UdfNode) (wantBuf : Bool) (pos len : Nat),
    u16At node.mem FE_ICBTAG_FLAGS_OFF &&& GRUB_UDF_ICBTAG_FLAG_AD_MASK = 3 →
    pos + len ≤ u64At node.mem FE_FILE_SIZE_OFF →
    grub_udf_read_file node wantBuf pos len =
      RFRes.inline
        (if wantBuf then
          some ((List.range len).map
            (fun j => u8At node.mem (udf_inline_base node + pos + j)))
         else none) len
    ∧ ((List.range len).map
        (fun j => u8At node.mem (udf_inline_base node + pos + j))).length = len := by
  intro node wantBuf pos len hstrat _
  refine ⟨?_, by simp⟩
  simp [grub_udf_read_file, hstrat]

/-- Witness for C6: the inline node nodeZ with offset 0 and length 2
yields its first two inline bytes and returns 2. -/
theorem claim_C6_read_file_in_icb_witness :
    grub_udf_read_file nodeZ true 0 2 = RFRes.inline (some [72, 101]) 2 := by
  have h := (claim_C6_read_file_in_icb nodeZ true 0 2 (by decide) (by decide)).1
  rw [h]; decide

/-- Claim C10 (counterexample): the invalid-part_ref failure path of the
found-AD branch does not return 0.  On nodeX (long AD of 1024 bytes whose
part_ref 5 is out of range for npm = 1) at file block 1, grub_udf_get_block
fails (errno set) and returns 0, and grub_udf_read_block returns
0 + (512 >> 9) = 1 — a nonzero value on a failure path, refuting "every
failure path returns 0". -/
theorem claim_C10_counterexample :
    grub_udf_read_block_r rbEnvX nodeX 1 3 = RBOut.found 1 true ∧
    grub_udf_read_block rbEnvX nodeX 1 3 = 1 := by decide

/-- Claim C10 (amended): sparse extents, an exhausted list, an invalid
FE/EFE tag, allocation failure, a failing AED read and an invalid AED tag
all make grub_udf_read_block return 0 — indistinguishable from one another
and from a valid mapping whose computed sector is 0; but the found branch
always returns lookup + (filebytes >> (9+lbshift)) even when the lookup
failed with an invalid part_ref, which can be nonzero. -/
theorem claim_C10_amended :
    ∀ (env : RBEnv) (node : UdfNode) (fileblock fuel : Nat),
    (grub_udf_read_block_r env node fileblock fuel = RBOut.sparse →
      grub_udf_read_block env node fileblock fuel = 0) ∧
    (grub_udf_read_block_r env node fileblock fuel = RBOut.exhausted →
      grub_udf_read_block env node fileblock fuel = 0) ∧
    (grub_udf_read_block_r env node fileblock fuel = RBOut.invalidFe →
      grub_udf_read_block env node fileblock fuel = 0) ∧
    (grub_udf_read_block_r env node fileblock fuel = RBOut.allocFail →
      grub_udf_read_block env node fileblock fuel = 0) ∧
    (grub_udf_read_block_r env node fileblock fuel = RBOut.aedReadErr →
      grub_udf_read_block env node fileblock fuel = 0) ∧
    (grub_udf_read_block_r env node fileblock fuel = RBOut.aedBadTag →
      grub_udf_read_block env node fileblock fuel = 0) ∧
    (∀ v e, grub_udf_read_block_r env node fileblock fuel = RBOut.found v e →
      grub_udf_read_block env node fileblock fuel = v) := by
  intro env node fileblock fuel
  refine ⟨?_, ?_, ?_, ?_, ?_, ?_, fun v e h => ?_⟩ <;>
    first
      | (intro h; unfold grub_udf_read_block; rw [h]; rfl)
      | (unfold grub_udf_read_block; rw [h]; rfl)

/-- Witness for the amended C10: the sparse node returns 0, and the
invalid-part_ref found branch returns its computed value 1. -/
theorem claim_C10_amended_witness :
    grub_udf_read_block rbEnvW nodeY 0 2 = 0 ∧ grub_udf_read_block rbEnvX nodeX 1 3 = 1 :=
  ⟨(claim_C10_amended rbEnvW nodeY 0 2).1 (by decide),
   (claim_C10_amended rbEnvX nodeX 1 3).2.2.2.2.2.2 1 true (by decide)⟩

/-- Claim C9: gen_uuid_from_volset agrees with the claim's derivation rule
on every volume-set identifier (none below 8 characters; after
truncating / zero-padding to 16 bytes, with k the first non-hex index: hex
of bytes 0..8 when k < 8, first 8 lowercased then hex of bytes 8..12 when
8 <= k < 16, all 16 lowercased when k = 16), and on
"DEADBEEFCAFEBABE-garbage" it yields "deadbeefcafebabe". -/
theorem claim_C9_uuid_rule :
    (∀ v : List Nat, gen_uuid_from_volset v = uuid_claim v) ∧
    gen_uuid_from_volset s6volset =
      some [100, 101, 97, 100, 98, 101, 101, 102, 99, 97, 102, 101, 98, 97, 98, 101] := by
  constructor
  · intro v
    simp only [gen_uuid_from_volset, uuid_claim]
    set s := v.takeWhile (· ≠ 0) with hs
    by_cases h8 : s.length < 8
    · simp [h8]
    · simp only [h8, if_false]
      set L := min s.length 16 with hL
      have hLle : L ≤ s.length := by omega
      have hL16 : L ≤ 16 := by omega
      have h16 : s.take 16 = s.take L := List.take_eq_take.mpr (by omega)
      set padded : List Nat := (s.take L).map (· % 256) ++ List.replicate (16 - L) 0
        with hpadded
      have hlen : padded.length = 16 := by
        simp only [hpadded, List.length_append, List.length_map, List.length_take,
          List.length_replicate]
        omega
      have hbuf : (s.take L).map (· % 256) ++ List.replicate (17 - L) 0 = padded ++ [0] := by
        rw [hpadded, List.append_assoc]
        congr 1
        have h17 : 17 - L = (16 - L) + 1 := by omega
        rw [h17, List.replicate_succ']
      have hgd : ∀ i, (padded ++ [0]).getD i 0 = padded.getD i 0 := by
        intro i
        rcases Nat.lt_or_ge i padded.length with h | h
        · exact List.getD_append _ _ _ _ h
        · rw [List.getD_append_right _ _ _ _ h, List.getD_eq_default _ _ h]
          rcases (i - padded.length) with _ | j <;> rfl
      rw [h16, hbuf]
      simp only [hgd]
      have hb1 : (padded ++ [0]).take 8 = padded.take 8 :=
        List.take_append_of_le_length (by omega)
      have hb2 : (padded ++ [0]).drop 8 = padded.drop 8 ++ [0] :=
        List.drop_append_of_le_length (by omega)
      have hb2t : (padded.drop 8 ++ [0]).take 4 = (padded.drop 8).take 4 :=
        List.take_append_of_le_length (by simp [hlen])
      have hb3 : (padded ++ [0]).take 16 = padded := by
        rw [List.take_append_of_le_length (by omega), ← hlen, List.take_length]
      rw [hb1, hb2, hb2t, hb3]
  · decide

/-- Helper for C1: whenever the short-AD chain flattens to a list L (all
AED continuations resolve with valid tags within the fuel) and allocation
succeeds, the walk of grub_udf_read_block computes exactly the claim's
resolution over L. -/
theorem udf_walk_short_eq_claim (env : RBEnv) (pr : Nat) (hA : env.allocOk = true) :
    ∀ (fuel : Nat) (m : Nat → Nat) (a len : Nat) (L : List (Nat × Nat)) (fb : Nat)
      (bufA : Bool),
    grub_udf_flatten_short env pr fuel m a len = some L →
    grub_udf_walk_short env pr fuel m a len fb bufA =
      resolve_fileblock_claim_short env pr L fb := by
  intro fuel
  induction fuel with
  | zero => intro m a len L fb bufA h; simp [grub_udf_flatten_short] at h
  | succ n ih =>
    intro m a len L fb bufA h
    simp only [grub_udf_flatten_short] at h
    simp only [grub_udf_walk_short]
    by_cases hlen : len < 8
    · rw [if_pos hlen] at h ⊢
      cases h
      rfl
    · rw [if_neg hlen] at h ⊢
      by_cases htype : u32At m a / 1073741824 = 3
      · rw [if_pos htype] at h ⊢
        have hguard : ¬ (bufA = false ∧ env.allocOk = false) := by simp [hA]
        rw [if_neg hguard]
        cases hae : env.aedRead
            ((grub_udf_get_block env pr (u32At m (a + 4))).2 <<< env.lbshift) with
        | none => rw [hae] at h; simp at h
        | some m2 =>
          rw [hae] at h
          dsimp only at h ⊢
          by_cases htag : u16At m2 0 ≠ GRUB_UDF_TAG_IDENT_AED
          · rw [if_pos htag] at h; exact absurd h (by simp)
          · rw [if_neg htag] at h ⊢
            exact ih m2 GRUB_UDF_AED_SIZE (u32At m2 AED_AE_LEN_OFF) L fb true h
      · rw [if_neg htype] at h ⊢
        cases hrec : grub_udf_flatten_short env pr n m (a + 8) (len - 8) with
        | none => rw [hrec] at h; exact absurd h (by simp)
        | some L2 =>
          rw [hrec] at h
          have hL : L = (u32At m a, u32At m (a + 4)) :: L2 := by simpa using h.symm
          subst hL
          simp only [resolve_fileblock_claim_short]
          by_cases hfb : fb < u32At m a % 1073741824
          · rw [if_pos hfb, if_pos hfb]
          · rw [if_neg hfb, if_neg hfb]
            exact ih m (a + 8) (len - 8) L2 (fb - u32At m a % 1073741824) bufA hrec

/-- Helper for C1: the long-AD analogue of udf_walk_short_eq_claim. -/
theorem udf_walk_long_eq_claim (env : RBEnv) (hA : env.allocOk = true) :
    ∀ (fuel : Nat) (m : Nat → Nat) (a len : Nat) (L : List (Nat × Nat × Nat)) (fb : Nat)
      (bufA : Bool),
    grub_udf_flatten_long env fuel m a len = some L →
    grub_udf_walk_long env fuel m a len fb bufA =
      resolve_fileblock_claim_long env L fb := by
  intro fuel
  induction fuel with
  | zero => intro m a len L fb bufA h; simp [grub_udf_flatten_long] at h
  | succ n ih =>
    intro m a len L fb bufA h
    simp only [grub_udf_flatten_long] at h
    simp only [grub_udf_walk_long]
    by_cases hlen : len < 16
    · rw [if_pos hlen] at h ⊢
      cases h
      rfl
    · rw [if_neg hlen] at h ⊢
      by_cases htype : u32At m a / 1073741824 = 3
      · rw [if_pos htype] at h ⊢
        have hguard : ¬ (bufA = false ∧ env.allocOk = false) := by simp [hA]
        rw [if_neg hguard]
        cases hae : env.aedRead
            ((grub_udf_get_block env (u16At m (a + 8)) (u32At m (a + 4))).2
              <<< env.lbshift) with
        | none => rw [hae] at h; simp at h
        | some m2 =>
          rw [hae] at h
          dsimp only at h ⊢
          by_cases htag : u16At m2 0 ≠ GRUB_UDF_TAG_IDENT_AED
          · rw [if_pos htag] at h; exact absurd h (by simp)
          · rw [if_neg htag] at h ⊢
            exact ih m2 GRUB_UDF_AED_SIZE (u32At m2 AED_AE_LEN_OFF) L fb true h
      · rw [if_neg htype] at h ⊢
        cases hrec : grub_udf_flatten_long env n m (a + 16) (len - 16) with
        | none => rw [hrec] at h; exact absurd h (by simp)
        | some L2 =>
          rw [hrec] at h
          have hL : L = (u32At m a, u32At m (a + 4), u16At m (a + 8)) :: L2 := by
            simpa using h.symm
          subst hL
          simp only [resolve_fileblock_claim_long]
          by_cases hfb : fb < u32At m a % 1073741824
          · rw [if_pos hfb, if_pos hfb]
          · rw [if_neg hfb, if_neg hfb]
            exact ih m (a + 16) (len - 16) L2 (fb - u32At m a % 1073741824) bufA hrec

/-- Claim C1: for every node with FE/EFE tag whose allocation strategy is
short or long ADs and every file block index, grub_udf_read_block computes
filebytes = fileblock * bsize (u64) and walks the allocation-descriptor
list, following type-3 ADs through AED continuations (tag 258 verified):
whenever the chain flattens to a list L, the result is the claim's
first-covering-AD resolution over L — not-present (sparse) when the
covering AD's position/block_num carries EXT_MASK, otherwise
lookup + (filebytes >> (9+lbshift)), and not-present (exhausted) when the
list runs out.  Allocation is assumed to succeed (the chain errors are
C10's subject). -/
theorem claim_C1_resolve_fileblock :
    ∀ (env : RBEnv) (node : UdfNode) (fileblock fuel : Nat),
    env.allocOk = true →
    (u16At node.mem 0 = GRUB_UDF_TAG_IDENT_FE ∨
     u16At node.mem 0 = GRUB_UDF_TAG_IDENT_EFE) →
    (∀ L, u16At node.mem FE_ICBTAG_FLAGS_OFF &&& GRUB_UDF_ICBTAG_FLAG_AD_MASK = 0 →
      grub_udf_flatten_short env node.part_ref fuel node.mem (udf_ad_ptr node)
        (udf_ad_len node) = some L →
      grub_udf_read_block_r env node fileblock fuel =
        resolve_fileblock_claim_short env node.part_ref L (udf_filebytes env fileblock)) ∧
    (∀ L, u16At node.mem FE_ICBTAG_FLAGS_OFF &&& GRUB_UDF_ICBTAG_FLAG_AD_MASK = 1 →
      grub_udf_flatten_long env fuel node.mem (udf_ad_ptr node)
        (udf_ad_len node) = some L →
      grub_udf_read_block_r env node fileblock fuel =
        resolve_fileblock_claim_long env L (udf_filebytes env fileblock)) := by
  intro env node fileblock fuel hA htag
  constructor
  · intro L hstrat hflat
    simp only [grub_udf_read_block_r, if_pos htag, hstrat, if_pos rfl]
    exact udf_walk_short_eq_claim env node.part_ref hA fuel node.mem (udf_ad_ptr node)
      (udf_ad_len node) L (udf_filebytes env fileblock) false hflat
  · intro L hstrat hflat
    have hne : ¬ (u16At node.mem FE_ICBTAG_FLAGS_OFF &&& GRUB_UDF_ICBTAG_FLAG_AD_MASK = 0) := by
      rw [hstrat]; decide
    simp only [grub_udf_read_block_r, if_pos htag, if_neg hne]
    exact udf_walk_long_eq_claim env hA fuel node.mem (udf_ad_ptr node)
      (udf_ad_len node) L (udf_filebytes env fileblock) false hflat

/-- Witness for C1: on the short-AD node nodeW, the chain flattens to a
single AD of 2048 bytes at position 10, and resolution of file block 0
equals the claim's resolution, which maps it to sector 110 = 100 + 10. -/
theorem claim_C1_resolve_fileblock_witness :
    grub_udf_read_block_r rbEnvW nodeW 0 2 =
      resolve_fileblock_claim_short rbEnvW 0 [(2048, 10)] 0 ∧
    resolve_fileblock_claim_short rbEnvW 0 [(2048, 10)] 0 = RBOut.found 110 false := by
  constructor
  · exact (claim_C1_resolve_fileblock rbEnvW nodeW 0 2 rfl (Or.inl (by decide))).1
      [(2048, 10)] (by decide) (by decide)
  · decide

/-- Helper: what a successful findIdx? in the fixup loop guarantees. -/
theorem udf_findIdx_pd (pds : List PdRec) (mv j : Nat)
    (h : pds.findIdx? (fun pd => pd.part_num = mv) = some j) :
    j < pds.length ∧ (pds.getD j ⟨0, 0⟩).part_num = mv := by
  rw [List.findIdx?_eq_some_iff_getElem] at h
  obtain ⟨hlt, hp, _⟩ := h
  refine ⟨hlt, ?_⟩
  rw [List.getD_eq_getElem _ _ hlt]
  simpa using hp

/-- Helper for C2: a successful partition fixup rewrites every map entry to
a valid PD index whose PD carries the original part_num. -/
theorem partition_fixup_spec (pds : List PdRec) :
    ∀ (M M2 : List Nat), partition_fixup pds M = some M2 →
    M2.length = M.length ∧
    ∀ i, i < M2.length →
      M2.getD i 0 < pds.length ∧
      (pds.getD (M2.getD i 0) ⟨0, 0⟩).part_num = M.getD i 0 := by
  intro M
  induction M with
  | nil =>
    intro M2 h
    cases h
    exact ⟨rfl, by intro i hi; simp at hi⟩
  | cons mv rest ih =>
    intro M2 h
    simp only [partition_fixup] at h
    cases hf : pds.findIdx? (fun pd => pd.part_num = mv) with
    | none => rw [hf] at h; simp at h
    | some j =>
      rw [hf] at h
      cases hr : partition_fixup pds rest with
      | none => rw [hr] at h; simp at h
      | some R2 =>
        rw [hr] at h
        have hM2 : M2 = j :: R2 := by simpa using h.symm
        subst hM2
        obtain ⟨hjlt, hjeq⟩ := udf_findIdx_pd pds mv j hf
        obtain ⟨hlen, hrest⟩ := ih R2 hr
        refine ⟨by simp [hlen], ?_⟩
        intro i hi
        cases i with
        | zero =>
          simp only [List.getD_cons_zero]
          exact ⟨hjlt, hjeq⟩
        | succ k =>
          have hk := hrest k (by simpa using hi)
          simpa using hk

/-- Claim C2: after every successful mount, every partition map entry is a
valid index into the PD table, and the PD at that index is the one whose
original part_num equalled the map's pre-rewrite part_num (M is the
pre-rewrite list the VDS scan collected); and when some map entry matches
no PD, mount fails with "can't find PD" instead of returning a volume. -/
theorem claim_C2_mount_partition_fixup :
    (∀ (env : MountEnv) (fV fD : Nat) (vol : UdfVol),
      grub_udf_mount env fV fD = Except.ok vol →
      ∃ M, partition_fixup vol.pds M = some vol.pms ∧
        ∀ i, i < vol.pms.length →
          vol.pms.getD i 0 < vol.pds.length ∧
          (vol.pds.getD (vol.pms.getD i 0) ⟨0, 0⟩).part_num = M.getD i 0) ∧
    (∀ (env : MountEnv) (fV fD lb start : Nat) (st : VdsSt),
      grub_udf_avdp_probe env [0, 1, 2, 3] = some (lb, start) →
      grub_udf_vrs_scan env lb fV ((32767 >>> (lb + GRUB_DISK_SECTOR_BITS)) + 1) =
        Except.ok () →
      grub_udf_vds_scan env lb fD start ⟨[], [], env.initPvd, env.initLvd⟩ =
        Except.ok st →
      partition_fixup st.pds st.pms = none →
      grub_udf_mount env fV fD = Except.error MErr.cantFindPD) := by
  constructor
  · intro env fV fD vol h
    simp only [grub_udf_mount] at h
    cases hp : grub_udf_avdp_probe env [0, 1, 2, 3] with
    | none => rw [hp] at h; simp at h
    | some p =>
      obtain ⟨lb, start⟩ := p
      rw [hp] at h
      try dsimp only at h
      cases hv : grub_udf_vrs_scan env lb fV
          ((32767 >>> (lb + GRUB_DISK_SECTOR_BITS)) + 1) with
      | error e => rw [hv] at h; simp at h
      | ok u =>
        cases u
        rw [hv] at h
        try dsimp only at h
        cases hd : grub_udf_vds_scan env lb fD start ⟨[], [], env.initPvd, env.initLvd⟩ with
        | error e => rw [hd] at h; simp at h
        | ok st =>
          rw [hd] at h
          try dsimp only at h
          cases hx : partition_fixup st.pds st.pms with
          | none => rw [hx] at h; simp at h
          | some pms2 =>
            rw [hx] at h
            try dsimp only at h
            cases hb : (grub_udf_get_block_d st.pds pms2 st.lvd.rf_part_ref
                st.lvd.rf_block_num).1 with
            | true => rw [hb] at h; simp at h
            | false =>
              rw [hb] at h
              try dsimp only at h
              cases hfs : env.readFileset
                  ((grub_udf_get_block_d st.pds pms2 st.lvd.rf_part_ref
                    st.lvd.rf_block_num).2 <<< lb) with
              | none => rw [hfs] at h; simp at h
              | some fs =>
                rw [hfs] at h
                try dsimp only at h
                by_cases htg : fs.tag_ident % 65536 ≠ GRUB_UDF_TAG_IDENT_FSD
                · rw [if_pos htg] at h; simp at h
                · rw [if_neg htg] at h
                  have hvol : vol = ⟨lb, st.pvd, st.lvd, st.pds, pms2,
                      fs.ri_block_num, fs.ri_part_ref⟩ := by
                    cases h; rfl
                  subst hvol
                  exact ⟨st.pms, hx, (partition_fixup_spec st.pds st.pms pms2 hx).2⟩
  · intro env fV fD lb start st h1 h2 h3 h4
    simp only [grub_udf_mount, h1, h2, h3, h4]

/-- Witness for C2: the small disk mEnvOk mounts to volOk (PD table
[{part_num 3, start 100}], partition map rewritten from [3] to [0]), and
on mEnvBad, whose only partition map names part_num 4, mount fails with
"can't find PD". -/
theorem claim_C2_mount_partition_fixup_witness :
    (∃ M, partition_fixup volOk.pds M = some volOk.pms ∧
      ∀ i, i < volOk.pms.length →
        volOk.pms.getD i 0 < volOk.pds.length ∧
        (volOk.pds.getD (volOk.pms.getD i 0) ⟨0, 0⟩).part_num = M.getD i 0) ∧
    grub_udf_mount mEnvBad 1 4 = Except.error MErr.cantFindPD := by
  constructor
  · exact claim_C2_mount_partition_fixup.1 mEnvOk 1 4 volOk rfl
  · exact claim_C2_mount_partition_fixup.2 mEnvBad 1 4 0 50 stBad rfl rfl rfl (by decide)

/-- Claim C3 (counterexample): the probe does not accept the first
(lbshift, candidate) pair whose tag matches.  On mEnvC3 the first matching
probe in iteration order is (lbshift 0, candidate 256) — the claim's
reading records lbshift 0 and vds start 0 — but because that AVDP's
vds.start is 0 the code leaves block at 0, skips the rest of that lbshift,
and accepts (lbshift 1, candidate 512) with start 7 instead. -/
theorem claim_C3_counterexample :
    grub_udf_avdp_probe mEnvC3 [0, 1, 2, 3] = some (1, 7) ∧
    avdp_probe_claim mEnvC3 avdp_probe_order = some (0, 0) ∧
    grub_udf_avdp_probe mEnvC3 [0, 1, 2, 3] ≠ avdp_probe_claim mEnvC3 avdp_probe_order := by
  decide

/-- Helper for C3: a successful probe decomposes the lbshift list into the
rejected ones (whose candidate scan either matched nothing or matched with
vds.start 0) followed by the accepted lbshift, whose candidate scan
returned the nonzero start that is recorded. -/
theorem udf_probe_decomp (env : MountEnv) :
    ∀ (ls : List Nat) (lb s : Nat), grub_udf_avdp_probe env ls = some (lb, s) →
    s ≠ 0 ∧ grub_udf_probe_inner env lb udf_sblocklist = some (some s) ∧
    ∃ L1 L2, ls = L1 ++ lb :: L2 ∧ ∀ lb2 ∈ L1,
      grub_udf_probe_inner env lb2 udf_sblocklist = some none ∨
      grub_udf_probe_inner env lb2 udf_sblocklist = some (some 0) := by
  intro ls
  induction ls with
  | nil => intro lb s h; simp [grub_udf_avdp_probe] at h
  | cons x rest ih =>
    intro lb s h
    simp only [grub_udf_avdp_probe] at h
    cases hin : grub_udf_probe_inner env x udf_sblocklist with
    | none => rw [hin] at h; simp at h
    | some o =>
      rw [hin] at h
      cases o with
      | none =>
        dsimp only at h
        obtain ⟨hs, hlb, L1, L2, hsplit, hrej⟩ := ih lb s h
        refine ⟨hs, hlb, x :: L1, L2, by rw [hsplit]; rfl, ?_⟩
        intro lb2 hmem
        rcases List.mem_cons.mp hmem with hx | hm
        · subst hx; exact Or.inl hin
        · exact hrej lb2 hm
      | some s0 =>
        dsimp only at h
        by_cases h0 : s0 = 0
        · rw [if_pos h0] at h
          subst h0
          obtain ⟨hs, hlb, L1, L2, hsplit, hrej⟩ := ih lb s h
          refine ⟨hs, hlb, x :: L1, L2, by rw [hsplit]; rfl, ?_⟩
          intro lb2 hmem
          rcases List.mem_cons.mp hmem with hx | hm
          · subst hx; exact Or.inr hin
          · exact hrej lb2 hm
        · rw [if_neg h0] at h
          obtain ⟨hlb, hs⟩ : x = lb ∧ s0 = s := by
            have := h
            simp only [Option.some.injEq, Prod.mk.injEq] at this
            exact this
          subst hlb; subst hs
          exact ⟨h0, hin, [], rest, rfl, by intro lb2 hm; simp at hm⟩

/-- Claim C3 (amended): the probe scans lbshift 0..3; at each lbshift the
candidate scan (256 then 512) takes the first candidate whose tag_ident is
AVDP and tag_location equals the candidate, and the probe accepts that
lbshift only when the matched AVDP's vds.start is nonzero — a match with
vds.start 0 abandons the remaining candidates of that lbshift and moves to
the next one.  When a successful probe reports (lb, s), s is nonzero, the
candidate scan at lb returned s, and every earlier lbshift was rejected
(no match, or a match with start 0).  And when no probe is accepted, mount
fails with "not an UDF filesystem". -/
theorem claim_C3_amended_probe :
    (∀ (env : MountEnv) (ls : List Nat) (lb s : Nat),
      grub_udf_avdp_probe env ls = some (lb, s) →
      s ≠ 0 ∧ grub_udf_probe_inner env lb udf_sblocklist = some (some s) ∧
      ∃ L1 L2, ls = L1 ++ lb :: L2 ∧ ∀ lb2 ∈ L1,
        grub_udf_probe_inner env lb2 udf_sblocklist = some none ∨
        grub_udf_probe_inner env lb2 udf_sblocklist = some (some 0)) ∧
    (∀ (env : MountEnv) (fV fD : Nat),
      grub_udf_avdp_probe env [0, 1, 2, 3] = none →
      grub_udf_mount env fV fD = Except.error MErr.notUdf) := by
  constructor
  · exact fun env ls lb s h => udf_probe_decomp env ls lb s h
  · intro env fV fD h
    simp only [grub_udf_mount, h]

/-- Witness for the amended C3: on mEnvOk the accepted probe is
(lbshift 0, start 50), whose candidate scan indeed returned 50; and on
mEnvNone, where nothing matches, mount fails with "not an UDF
filesystem". -/
theorem claim_C3_amended_probe_witness :
    grub_udf_probe_inner mEnvOk 0 udf_sblocklist = some (some 50) ∧
    grub_udf_mount mEnvNone 1 1 = Except.error MErr.notUdf :=
  ⟨(claim_C3_amended_probe.1 mEnvOk [0, 1, 2, 3] 0 50 (by decide)).2.1,
   claim_C3_amended_probe.2 mEnvNone 1 1 (by decide)⟩

/-- Claim C8 (counterexample): a failing file-identifier decode does not
terminate the iteration.  In dirEnvSkip the entry at offset 0 has an
identifier whose decode fails (read_string of [7] is none: invalid OSTA
compression id); the code prints and clears the error, skips that entry
without calling the hook, and continues: the later entry "b" is emitted
and the run finishes without error. -/
theorem claim_C8_counterexample :
    read_string [7] = none ∧
    grub_udf_iterate_dir dirEnvSkip 3 =
      ⟨[⟨[46], FSHELP_DIR⟩, ⟨[98], FSHELP_REG⟩], [0, 40], IterRes.finished⟩ := by
  decide

/-- Claim C8 (amended): inside iterate_dir, failures of reading the dirent,
of the child ICB read, and of reading the raw identifier bytes terminate
the iteration with the error (return 0); but a failure of decoding the
identifier (read_string returning null) is deliberately swallowed — the
error is printed and cleared, the entry is skipped with no hook call, and
iteration continues at the next aligned offset. -/
theorem claim_C8_amended :
    ∀ (env : DirEnv) (fuel offset : Nat) (d : FidRec),
    offset < env.file_size →
    env.readDirent offset = some d →
    d.tag_ident % 65536 = GRUB_UDF_TAG_IDENT_FID →
    d.characteristics % 256 &&& GRUB_UDF_FID_CHAR_DELETED = 0 →
    d.characteristics % 256 &&& GRUB_UDF_FID_CHAR_PARENT = 0 →
    env.allocOk = true →
    (∀ c raws, env.readIcb d.icb_part_ref d.icb_block_num = some c →
      env.readIdent (fid_ident_offset offset d) (d.file_ident_length % 256) = some raws →
      read_string raws = none →
      grub_udf_iterate_dir_loop env (fuel + 1) offset =
        ⟨(grub_udf_iterate_dir_loop env fuel (fid_next_offset offset d)).emits,
         offset :: (grub_udf_iterate_dir_loop env fuel (fid_next_offset offset d)).offsets,
         (grub_udf_iterate_dir_loop env fuel (fid_next_offset offset d)).res⟩) ∧
    (∀ c, env.readIcb d.icb_part_ref d.icb_block_num = some c →
      env.readIdent (fid_ident_offset offset d) (d.file_ident_length % 256) = none →
      grub_udf_iterate_dir_loop env (fuel + 1) offset = ⟨[], [offset], IterRes.failed⟩) := by
  intro env fuel offset d hlt hrd htag hdel hpar hal
  constructor
  · intro c raws hicb hident hrs
    simp only [grub_udf_iterate_dir_loop]
    rw [if_neg (by omega), hrd]
    dsimp only
    rw [if_neg (by simp [htag]), if_neg (by simp [hdel]), if_neg (by simp [hal]), hicb]
    dsimp only
    rw [if_neg (by simp [hpar]), hident]
    dsimp only
    rw [hrs]
  · intro c hicb hident
    simp only [grub_udf_iterate_dir_loop]
    rw [if_neg (by omega), hrd]
    dsimp only
    rw [if_neg (by simp [htag]), if_neg (by simp [hdel]), if_neg (by simp [hal]), hicb]
    dsimp only
    rw [if_neg (by simp [hpar]), hident]

/-- Witness for the amended C8: in dirEnvSkip the undecodable first entry
is skipped and the loop continues from the aligned offset 40; in
dirEnvFail, where the identifier bytes cannot be read, the loop at offset 0
terminates with the error. -/
theorem claim_C8_amended_witness :
    grub_udf_iterate_dir_loop dirEnvSkip 3 0 =
      ⟨(grub_udf_iterate_dir_loop dirEnvSkip 2 (fid_next_offset 0 dBad)).emits,
       0 :: (grub_udf_iterate_dir_loop dirEnvSkip 2 (fid_next_offset 0 dBad)).offsets,
       (grub_udf_iterate_dir_loop dirEnvSkip 2 (fid_next_offset 0 dBad)).res⟩ ∧
    grub_udf_iterate_dir_loop dirEnvFail 1 0 = ⟨[], [0], IterRes.failed⟩ := by
  constructor
  · exact (claim_C8_amended dirEnvSkip 2 0 dBad (by decide) (by decide) (by decide)
      (by decide) (by decide) rfl).1 ⟨0⟩ [7] rfl (by decide) (by decide)
  · exact (claim_C8_amended dirEnvFail 0 0 dBad (by decide) (by decide) (by decide)
      (by decide) (by decide) rfl).2 ⟨0⟩ rfl rfl

/-- Helper: an iteration-loop run's offset trace is empty or starts with
the offset the run was entered at. -/
theorem udf_dir_loop_offsets_shape (env : DirEnv) :
    ∀ (fuel offset : Nat), (grub_udf_iterate_dir_loop env fuel offset).offsets = [] ∨
      ∃ t, (grub_udf_iterate_dir_loop env fuel offset).offsets = offset :: t := by
  intro fuel offset
  cases fuel with
  | zero => exact Or.inl rfl
  | succ n =>
    simp only [grub_udf_iterate_dir_loop]
    repeat' split
    all_goals first
      | exact Or.inl rfl
      | exact Or.inr ⟨_, rfl⟩

/-- Helper: one unfolding of the loop at an in-range offset: either the
iteration ends at once (trace [offset]) or some FID d was read and the
trace is offset followed by the trace from the next aligned offset. -/
theorem udf_dir_loop_offsets_step (env : DirEnv) (n offset : Nat)
    (h1 : ¬ env.file_size ≤ offset) :
    (grub_udf_iterate_dir_loop env (n + 1) offset).offsets = [offset] ∨
    ∃ d, env.readDirent offset = some d ∧
      (grub_udf_iterate_dir_loop env (n + 1) offset).offsets =
        offset :: (grub_udf_iterate_dir_loop env n (fid_next_offset offset d)).offsets := by
  simp only [grub_udf_iterate_dir_loop]
  rw [if_neg h1]
  repeat' split
  all_goals first
    | exact Or.inl rfl
    | exact Or.inr ⟨_, by assumption, rfl⟩

/-- Helper: the no-wraparound step bound: as long as the current offset is
at least 65832 below 2^64, the next offset is strictly larger and 4-byte
aligned (38 + imp_use (u16) + file_ident (u8) + 3 never exceeds 65831). -/
theorem fid_next_offset_lt (offset : Nat) (d : FidRec)
    (h : offset + 65832 ≤ 18446744073709551616) :
    offset < fid_next_offset offset d ∧ fid_next_offset offset d % 4 = 0 := by
  have hA : d.imp_use_length % 65536 < 65536 := Nat.mod_lt _ (by norm_num)
  have hB : d.file_ident_length % 256 < 256 := Nat.mod_lt _ (by norm_num)
  unfold fid_next_offset fid_ident_offset
  simp only [GRUB_UDF_FID_SIZE]
  omega

/-- Helper: prefixing a loop trace with a strictly smaller offset keeps it
a strictly increasing chain. -/
theorem udf_dir_loop_cons_chain (env : DirEnv) (offset next n : Nat)
    (hlt : offset < next)
    (hch : List.Chain' (· < ·) (grub_udf_iterate_dir_loop env n next).offsets) :
    List.Chain' (· < ·) (offset :: (grub_udf_iterate_dir_loop env n next).offsets) := by
  refine List.Chain'.cons' hch ?_
  intro y hy
  rcases udf_dir_loop_offsets_shape env n next with hsh | ⟨t, hsh⟩
  · rw [hsh] at hy; simp at hy
  · rw [hsh] at hy
    simp at hy
    omega

/-- Helper for the amended C7: when the directory size leaves room below
2^64 for one maximal FID step, every loop trace from a 4-aligned offset is
strictly increasing and 4-aligned throughout. -/
theorem udf_dir_loop_monotone (env : DirEnv)
    (hfs : env.file_size + 65832 ≤ 18446744073709551616) :
    ∀ (fuel offset : Nat), offset % 4 = 0 →
    List.Chain' (· < ·) (grub_udf_iterate_dir_loop env fuel offset).offsets ∧
    ∀ o ∈ (grub_udf_iterate_dir_loop env fuel offset).offsets, o % 4 = 0 := by
  intro fuel
  induction fuel with
  | zero =>
    intro offset h4
    exact ⟨List.chain'_nil, by intro o ho; simp [grub_udf_iterate_dir_loop] at ho⟩
  | succ n ih =>
    intro offset h4
    by_cases h1 : env.file_size ≤ offset
    · have hred : (grub_udf_iterate_dir_loop env (n + 1) offset).offsets = [] := by
        simp [grub_udf_iterate_dir_loop, if_pos h1]
      rw [hred]
      exact ⟨List.chain'_nil, by simp⟩
    · rcases udf_dir_loop_offsets_step env n offset h1 with hs | ⟨d, _, hs⟩
      · rw [hs]
        exact ⟨List.chain'_singleton _, by intro o ho; simp at ho; omega⟩
      · rw [hs]
        have hno : offset + 65832 ≤ 18446744073709551616 := by omega
        obtain ⟨hlt, h4n⟩ := fid_next_offset_lt offset d hno
        obtain ⟨hch, hmem⟩ := ih (fid_next_offset offset d) h4n
        refine ⟨udf_dir_loop_cons_chain env offset _ n hlt hch, ?_⟩
        intro o ho
        rcases List.mem_cons.mp ho with h | h
        · omega
        · exact hmem o h

/-- Claim C7 (amended): in every iterate_dir run over a directory whose
file size leaves room for one maximal FID step below 2^64 (file_size <=
2^64 - 65832, so the u64 offset arithmetic cannot wrap), the sequence of
FID iteration offsets is strictly increasing, and every iteration starts at
a 4-byte-aligned offset. -/
theorem claim_C7_amended_offsets_monotone :
    ∀ (env : DirEnv) (fuel : Nat),
    env.file_size + 65832 ≤ 18446744073709551616 →
    List.Chain' (· < ·) (grub_udf_iterate_dir env fuel).offsets ∧
    ∀ o ∈ (grub_udf_iterate_dir env fuel).offsets, o % 4 = 0 := by
  intro env fuel hfs
  unfold grub_udf_iterate_dir
  by_cases h1 : env.allocOk = false
  · rw [if_pos h1]
    exact ⟨List.chain'_nil, by simp⟩
  · rw [if_neg h1]
    by_cases h2 : env.hook [46] FSHELP_DIR
    · rw [if_pos h2]
      exact ⟨List.chain'_nil, by simp⟩
    · rw [if_neg h2]
      exact udf_dir_loop_monotone env hfs fuel 0 rfl

/-- Witness for the amended C7: the two-entry directory dirEnvSkip
(file size 80) has the strictly increasing, 4-aligned trace [0, 40]. -/
theorem claim_C7_amended_offsets_monotone_witness :
    List.Chain' (· < ·) (grub_udf_iterate_dir dirEnvSkip 3).offsets ∧
    ∀ o ∈ (grub_udf_iterate_dir dirEnvSkip 3).offsets, o % 4 = 0 :=
  claim_C7_amended_offsets_monotone dirEnvSkip 3 (by norm_num [dirEnvSkip])

/-- Helper: in dirEnvWrap every loop pass at a 4096-divisible offset below
the (maximal) file size records the offset and continues at
(offset + 4096) mod 2^64. -/
theorem udf_wrap_step (f o : Nat) (h4 : 4096 ∣ o)
    (hlt : o < 18446744073709551616) :
    grub_udf_iterate_dir_loop dirEnvWrap (f + 1) o =
      ⟨(grub_udf_iterate_dir_loop dirEnvWrap f
          ((o + 4096) % 18446744073709551616)).emits,
       o :: (grub_udf_iterate_dir_loop dirEnvWrap f
          ((o + 4096) % 18446744073709551616)).offsets,
       (grub_udf_iterate_dir_loop dirEnvWrap f
          ((o + 4096) % 18446744073709551616)).res⟩ := by
  have hnext : fid_next_offset o dDel = (o + 4096) % 18446744073709551616 := by
    unfold fid_next_offset fid_ident_offset
    simp only [dDel, GRUB_UDF_FID_SIZE]
    omega
  simp only [grub_udf_iterate_dir_loop, dirEnvWrap]
  rw [if_neg (by omega)]
  rw [if_neg (by decide), if_pos (by decide), hnext]

/-- Helper: the k-th recorded offset of a dirEnvWrap run is
(o + 4096 k) mod 2^64. -/
theorem udf_wrap_offsets (k : Nat) :
    ∀ (f o : Nat), k < f → 4096 ∣ o → o < 18446744073709551616 →
    ((grub_udf_iterate_dir_loop dirEnvWrap f o).offsets).get? k =
      some ((o + 4096 * k) % 18446744073709551616) := by
  induction k with
  | zero =>
    intro f o hk h4 hlt
    obtain ⟨f', rfl⟩ : ∃ f', f = f' + 1 := ⟨f - 1, by omega⟩
    rw [udf_wrap_step f' o h4 hlt]
    simp [Nat.mod_eq_of_lt hlt]
  | succ k ih =>
    intro f o hk h4 hlt
    obtain ⟨f', rfl⟩ : ∃ f', f = f' + 1 := ⟨f - 1, by omega⟩
    rw [udf_wrap_step f' o h4 hlt]
    have h4n : 4096 ∣ (o + 4096) % 18446744073709551616 := by omega
    have hltn : (o + 4096) % 18446744073709551616 < 18446744073709551616 := by omega
    dsimp only
    rw [List.get?_cons_succ, ih f' _ (by omega) h4n hltn]
    simp only [Option.some.injEq]
    omega

/-- Helper: two consecutive entries of a strictly increasing chain compare. -/
theorem udf_chain_get?_lt {l : List Nat} (h : List.Chain' (· < ·) l) (i a b : Nat)
    (h1 : l.get? i = some a) (h2 : l.get? (i + 1) = some b) : a < b := by
  obtain ⟨hl1, hv1⟩ := List.get?_eq_some.mp h1
  obtain ⟨hl2, hv2⟩ := List.get?_eq_some.mp h2
  have hstep := List.chain'_iff_get.mp h i (by omega)
  rw [hv1, hv2] at hstep
  exact hstep

/-- Claim C7 (counterexample): the offset does not strictly increase at
every step of every run.  In dirEnvWrap (file size 2^64 - 1, every FID a
DELETED entry stepping the u64 offset by 4096) iteration 2^52 - 1 starts at
offset 2^64 - 4096 and the following iteration starts at offset
(2^64 - 4096 + 4096) mod 2^64 = 0: the offset wraps and decreases while
the loop keeps running, so the trace is not a strictly increasing chain. -/
theorem claim_C7_counterexample :
    ¬ (List.Chain' (· < ·) (grub_udf_iterate_dir dirEnvWrap (2 ^ 52 + 2)).offsets ∧
       ∀ o ∈ (grub_udf_iterate_dir dirEnvWrap (2 ^ 52 + 2)).offsets, o % 4 = 0) := by
  rintro ⟨hchain, -⟩
  have hoff : (grub_udf_iterate_dir dirEnvWrap (2 ^ 52 + 2)).offsets =
      (grub_udf_iterate_dir_loop dirEnvWrap (2 ^ 52 + 2) 0).offsets := by
    unfold grub_udf_iterate_dir
    rw [if_neg (by decide), if_neg (by decide)]
  rw [hoff] at hchain
  have h1 := udf_wrap_offsets (2 ^ 52 - 1) (2 ^ 52 + 2) 0 (by norm_num)
    (dvd_zero 4096) (by norm_num)
  have h2 := udf_wrap_offsets (2 ^ 52) (2 ^ 52 + 2) 0 (by norm_num)
    (dvd_zero 4096) (by norm_num)
  have e1 : (0 + 4096 * (2 ^ 52 - 1)) % 18446744073709551616 = 18446744073709547520 := by
    norm_num
  have e2 : (0 + 4096 * 2 ^ 52) % 18446744073709551616 = 0 := by norm_num
  rw [e1] at h1
  rw [e2] at h2
  have h2s : ((grub_udf_iterate_dir_loop dirEnvWrap (2 ^ 52 + 2) 0).offsets).get?
      ((2 ^ 52 - 1) + 1) = some 0 := by
    rw [show (2 ^ 52 - 1) + 1 = 2 ^ 52 from by norm_num]
    exact h2
  have := udf_chain_get?_lt hchain (2 ^ 52 - 1) 18446744073709547520 0 h1 h2s
  omega
